import Mathlib

/-!
Verification of the thermal feedback-control core (`thermal.py`): the
`Control` strategy family (infinite-gain, proportional, PID), the
`ControllerReporter` rate-limited record emitter, the `Controller`
orchestration tick, the `HeaterFanController` setpoint broadcast, and the
`Thermistor` process variable.  Numeric quantities are modelled as exact
rationals (temperatures, efforts, simulated clock times), optional Python
values (`None`) as `Option`, and the Steinhart-Hart temperature conversion
over the reals.
-/

/-- State of a `Control` object (`thermal.py`, class `Control.__init__`):
setpoint, output bounds, the tri-state reached latch (`none` models Python
`None` = unset), the reached epsilon, the direction flag and the enabled
flag.  `has_after_setpoint_change` records whether a callable
`after_setpoint_change` callback is attached (the callback body itself is
external); `Control.set_setpoint` reports how many times it invoked it. -/
structure Control where
  setpoint : Option ℚ
  min_output : ℚ := 0
  max_output : ℚ := 1
  setpoint_reached : Option Bool := some false
  setpoint_reached_epsilon : ℚ := 0
  output_increases_pv : Bool := true
  enabled : Bool := true
  has_after_setpoint_change : Bool := false
  deriving Repr, DecidableEq

/-- `Control.reset_setpoint_reached`: sets the latch to `False`. -/
def Control.reset_setpoint_reached (c : Control) : Control :=
  { c with setpoint_reached := some false }

/-- `Control.set_setpoint`: no-op when the new value equals the current
setpoint; otherwise stores it, resets the latch and, when a callable
callback is attached, invokes it once.  The second component counts the
callback invocations performed by the call. -/
def Control.set_setpoint (c : Control) (setpoint : Option ℚ) : Control × ℕ :=
  if setpoint = c.setpoint then (c, 0)
  else
    (Control.reset_setpoint_reached { c with setpoint := setpoint },
     if c.has_after_setpoint_change then 1 else 0)

/-- `Control.enable`. -/
def Control.enable (c : Control) : Control := { c with enabled := true }

/-- `Control.disable`. -/
def Control.disable (c : Control) : Control := { c with enabled := false }

/-- `Control.compute_error`: `setpoint - measurement` when both are
present, otherwise `None`. -/
def Control.compute_error (c : Control) (measurement : Option ℚ) : Option ℚ :=
  match c.setpoint, measurement with
  | some s, some m => some (s - m)
  | _, _ => none

/-- `Control.compute_setpoint_reached`: `|error| < epsilon` when the error
is defined, otherwise `None`. -/
def Control.compute_setpoint_reached (c : Control) (measurement : Option ℚ) :
    Option Bool :=
  match Control.compute_error c measurement with
  | none => none
  | some e => some (decide (|e| < c.setpoint_reached_epsilon))

/-- `Control.clamp_output`: `max(min_output, min(max_output, output))`. -/
def Control.clamp_output (c : Control) (output : ℚ) : ℚ :=
  max c.min_output (min c.max_output output)

/-- `Control.update`: with no setpoint the latch becomes unset (`None`);
otherwise the latch is set to `True` exactly when
`compute_setpoint_reached` is truthy (Python `if setpoint_reached:` treats
both `None` and `False` as falsy). -/
def Control.update (c : Control) (measurement : Option ℚ) : Control :=
  match c.setpoint with
  | none => { c with setpoint_reached := none }
  | some _ =>
    match Control.compute_setpoint_reached c measurement with
    | some true => { c with setpoint_reached := some true }
    | _ => c

/-- `InfiniteGainControl.compute_control_effort`: `0` when the setpoint is
absent or the control is disabled (checked first), `None` on an absent
measurement, otherwise bang-bang between `max_output` and `min_output`
according to the sign of the error and the direction flag. -/
def InfiniteGainControl.compute_control_effort (c : Control)
    (measurement : Option ℚ) : Option ℚ :=
  match c.setpoint with
  | none => some 0
  | some s =>
    if c.enabled = false then some 0
    else
      match measurement with
      | none => none
      | some m =>
        let error := s - m
        if c.output_increases_pv then
          if 0 < error then some c.max_output else some c.min_output
        else
          if error < 0 then some c.max_output else some c.min_output

/-- `ProportionalControl.compute_control_effort`: `0` when the setpoint is
absent or the control is disabled (checked first), `None` on an absent
measurement, otherwise the clamped product of the (possibly negated) gain
and the error. -/
def ProportionalControl.compute_control_effort (gain : ℚ) (c : Control)
    (measurement : Option ℚ) : Option ℚ :=
  match c.setpoint with
  | none => some 0
  | some s =>
    if c.enabled = false then some 0
    else
      match measurement with
      | none => none
      | some m =>
        let error := s - m
        let g := if c.output_increases_pv then gain else -gain
        some (Control.clamp_output c (g * error))

/-- Modelled from the spec: `PIDControl` delegates to the external
`simple_pid.PID` instance, which is not part of this repository; per the
spec the delegate is "configured with the same (min,max) bounds and
setpoint" and returns an effort within those output limits, modelled here
as clamping an arbitrary raw delegate response `pidRaw`.  The control-flow
around the delegate mirrors `PIDControl.compute_control_effort` in
`thermal.py`: the absent-measurement check comes FIRST, then the
absent-setpoint / disabled check returning `0`. -/
def PIDControl.compute_control_effort (pidRaw : ℚ → ℚ) (c : Control)
    (measurement : Option ℚ) : Option ℚ :=
  match measurement with
  | none => none
  | some m =>
    if c.setpoint = none ∨ c.enabled = false then some 0
    else some (Control.clamp_output c (pidRaw m))

/-- The closed family of `Control` strategy variants in `thermal.py`. -/
inductive ControlVariant where
  | infiniteGain : ControlVariant
  | proportional (gain : ℚ) : ControlVariant
  | pid (pidRaw : ℚ → ℚ) : ControlVariant

/-- Dynamic dispatch of `compute_control_effort` over the variants. -/
def ControlVariant.compute_control_effort : ControlVariant → Control → Option ℚ → Option ℚ
  | .infiniteGain => InfiniteGainControl.compute_control_effort
  | .proportional gain => ProportionalControl.compute_control_effort gain
  | .pid pidRaw => PIDControl.compute_control_effort pidRaw

/-- Round a rational to the nearest integer, ties to even (the rounding
used by Python `format` on floats at a decimal position). -/
def roundHalfEven (q : ℚ) : ℤ :=
  let f := ⌊q⌋
  if q - f < 1 / 2 then f
  else if 1 / 2 < q - f then f + 1
  else if f % 2 = 0 then f else f + 1

/-- Left-pad a numeral string with zeros to the given width. -/
def padZeros (width : ℕ) (s : String) : String :=
  String.mk (List.replicate (width - s.length) '0') ++ s

/-- Fixed-point rendering of a rational with the given number of decimal
digits, as Python `'{:.Nf}'.format` renders a number. -/
def formatFixed (digits : ℕ) (q : ℚ) : String :=
  let scaled := roundHalfEven (q * (10 : ℚ) ^ digits)
  let sign := if scaled < 0 then "-" else ""
  let a := scaled.natAbs
  if digits = 0 then sign ++ toString a
  else sign ++ toString (a / 10 ^ digits) ++ "." ++ padZeros digits (toString (a % 10 ^ digits))

/-- `ControllerReporter.format_control_efforts`: each effort rendered with
2 decimals, an absent effort rendered as the empty string, comma-joined. -/
def ControllerReporter.format_control_efforts (control_efforts : List (Option ℚ)) :
    String :=
  String.intercalate ","
    (control_efforts.map fun effort =>
      match effort with
      | some v => formatFixed 2 v
      | none => "")

/-- `ControllerReporter.report`: the record line written for one report.
Mirrors the `'{:.2f},{:.1f},{},{},{}{}'` format call: elapsed time with 2
decimals, process variable with 1 decimal, setpoint with 1 decimal or
blank, error with 1 decimal or blank, then the joined effort fields
followed by a comma ONLY when the joined string is non-empty (the Python
truthiness test `if control_efforts_string`), then the reached flag
(`str(True)`/`str(False)` or blank). -/
def ControllerReporter.report (start_time report_time process_variable : ℚ)
    (setpoint : Option ℚ) (setpoint_reached : Option Bool)
    (control_efforts : List (Option ℚ)) : String :=
  let error : Option ℚ :=
    match setpoint with
    | some s => some (s - process_variable)
    | none => none
  let ces := ControllerReporter.format_control_efforts control_efforts
  formatFixed 2 (report_time - start_time) ++ "," ++
  formatFixed 1 process_variable ++ "," ++
  (match setpoint with | some s => formatFixed 1 s | none => "") ++ "," ++
  (match error with | some e => formatFixed 1 e | none => "") ++ "," ++
  (if ces = "" then "" else ces ++ ",") ++
  (match setpoint_reached with
   | some true => "True"
   | some false => "False"
   | none => "")

/-- One emitted record: the (simulated) wall-clock time `report` was
called with, and the line written to the log sink. -/
structure ReportRecord where
  report_time : ℚ
  line : String
  deriving Repr, DecidableEq

/-- State of a `ControllerReporter` (`thermal.py`): reporting interval,
session start time and next report index (both absent until the first
accepted sample), the enabled flag and whether a log file is open. -/
structure ControllerReporter where
  interval : ℚ
  start_time : Option ℚ := none
  next_report_index : Option ℕ := none
  enabled : Bool := false
  file_open : Bool := false
  deriving Repr, DecidableEq

/-- `ControllerReporter.__init__`: constructed idle, with the enabled flag
false and no session armed. -/
def ControllerReporter.init (interval : ℚ) : ControllerReporter :=
  { interval := interval }

/-- `ControllerReporter.enable`. -/
def ControllerReporter.enable (r : ControllerReporter) : ControllerReporter :=
  { r with enabled := true }

/-- `ControllerReporter.disable`. -/
def ControllerReporter.disable (r : ControllerReporter) : ControllerReporter :=
  { r with enabled := false }

/-- `ControllerReporter.reset`: clears the session state, closes any open
file and calls `enable()` — so the enabled flag is true afterwards. -/
def ControllerReporter.reset (r : ControllerReporter) : ControllerReporter :=
  { r with start_time := none, next_report_index := none, file_open := false,
           enabled := true }

/-- `ControllerReporter.update`: no-op when disabled or the measurement is
absent.  On the first accepted sample, records `start_time := now`, arms
`next_report_index := 0` and opens the log sink.  Emits one record when
`now ≥ next_report_index * interval + start_time`, advancing the index.
The wall clock (`time.time()` in the source) is passed explicitly as
`current_time`.  The source reads `self.start_time` only after the arming
branch has ensured it is set alongside `next_report_index`; the final
catch-all branch of the inner match is unreachable for states produced by
`init` / `reset` / `update`, which keep the two fields armed together. -/
def ControllerReporter.update (r : ControllerReporter) (current_time : ℚ)
    (process_variable : Option ℚ) (setpoint : Option ℚ)
    (setpoint_reached : Option Bool) (control_efforts : List (Option ℚ)) :
    ControllerReporter × Option ReportRecord :=
  match process_variable with
  | none => (r, none)
  | some pv =>
    if r.enabled then
      let r1 :=
        match r.next_report_index with
        | none => { r with start_time := some current_time,
                           next_report_index := some 0, file_open := true }
        | some _ => r
      match r1.next_report_index, r1.start_time with
      | some i, some s =>
        if (i : ℚ) * r1.interval + s ≤ current_time then
          ({ r1 with next_report_index := some (i + 1) },
           some ⟨current_time,
                 ControllerReporter.report s current_time pv setpoint
                   setpoint_reached control_efforts⟩)
        else (r1, none)
      | _, _ => (r1, none)
    else (r, none)

/-- Run a reporter through a sequence of `(current_time, process_variable)`
update calls (setpoint, reached flag and efforts held at their defaults),
collecting every emitted record in order. -/
def ControllerReporter.run : ControllerReporter → List (ℚ × Option ℚ) →
    ControllerReporter × List ReportRecord
  | r, [] => (r, [])
  | r, (t, pv) :: rest =>
    let step := ControllerReporter.update r t pv none none []
    let tail := ControllerReporter.run step.1 rest
    (tail.1, step.2.toList ++ tail.2)

/-- State of a `Controller`: the ordered controls (each a strategy variant
with its state), the number of physical outputs, and the reporters.
Outputs themselves are external actuators; the `set_state` calls made to
them are returned as data by `Controller.update`. -/
structure Controller where
  controls : List (ControlVariant × Control)
  num_outputs : ℕ
  reporters : List ControllerReporter

/-- Everything one `Controller.update()` tick produces besides the new
state: the returned `(process_variable, control_efforts)` pair, the
efforts passed to `output.set_state` (one per zipped (output, effort)
pair), and the records emitted by the reporters. -/
structure UpdateResult where
  result : Option ℚ × List (Option ℚ)
  set_state_calls : List (Option ℚ)
  records : List ReportRecord

/-- `Controller.update`: when the process variable reads `None`, returns
`(None, (None,))` immediately — no control updated, no `set_state` call,
no reporter update.  Otherwise updates every control, computes every
effort, writes each effort to its zipped output, and fans the measurement,
the primary (index 0) control's setpoint and reached flag, and all efforts
to every reporter.  The process-variable reading and the wall clock are
passed in explicitly.  The source indexes `self.controls[0]` when
reporting; the model reads it through `head?` (the branch for an empty
control list is never exercised: concrete controllers own at least one
control). -/
def Controller.update (ctrl : Controller) (pv_reading : Option ℚ) (now : ℚ) :
    Controller × UpdateResult :=
  match pv_reading with
  | none => (ctrl, ⟨(none, [none]), [], []⟩)
  | some pv =>
    let controls2 := ctrl.controls.map fun vc => (vc.1, Control.update vc.2 (some pv))
    let efforts := controls2.map fun vc =>
      ControlVariant.compute_control_effort vc.1 vc.2 (some pv)
    let set_state_calls := efforts.take ctrl.num_outputs
    let sp0 := match controls2.head? with | some vc => vc.2.setpoint | none => none
    let re0 := match controls2.head? with | some vc => vc.2.setpoint_reached | none => none
    let stepped := ctrl.reporters.map fun rep =>
      ControllerReporter.update rep now (some pv) sp0 re0 efforts
    ({ ctrl with controls := controls2, reporters := stepped.map Prod.fst },
     ⟨(some pv, efforts), set_state_calls, (stepped.map Prod.snd).reduceOption⟩)

/-- The controls owned by a `HeaterFanController`: the heater control, the
fan control and any additional controls (in the source, the controller's
control list is `[heater_control, fan_control] + additional_controls`),
plus the fixed fan setpoint offset. -/
structure HeaterFanController where
  heater_control : Control
  fan_control : Control
  additional_controls : List Control := []
  fan_setpoint_offset : ℚ := 0

/-- `Controller.set_setpoint` as inherited by `HeaterFanController`:
broadcasts the new setpoint to every owned control — the fan control
included, since it sits in the control list. -/
def HeaterFanController.broadcast_set_setpoint (h : HeaterFanController)
    (setpoint : Option ℚ) : HeaterFanController :=
  { h with
    heater_control := (Control.set_setpoint h.heater_control setpoint).1,
    fan_control := (Control.set_setpoint h.fan_control setpoint).1,
    additional_controls :=
      h.additional_controls.map fun c => (Control.set_setpoint c setpoint).1 }

/-- `HeaterFanController.set_setpoint`: first the inherited broadcast to
all controls, then — only when the new setpoint is present — a second
`set_setpoint` on the fan control with the offset applied. -/
def HeaterFanController.set_setpoint (h : HeaterFanController)
    (setpoint : Option ℚ) : HeaterFanController :=
  let h1 := HeaterFanController.broadcast_set_setpoint h setpoint
  match setpoint with
  | none => h1
  | some s =>
    { h1 with
      fan_control :=
        (Control.set_setpoint h1.fan_control (some (s + h.fan_setpoint_offset))).1 }

/-- `Thermistor.read_resistance`: with raw readings `reference_reading`
(reference pin) and `thermistor_reading` (thermistor pin), the referenced
reading is their difference; when it is ≤ 0 the divider is invalid and the
result is `None`, otherwise
`thermistor_reading * bias_resistance / referenced_reading`. -/
def Thermistor.read_resistance (bias_resistance reference_reading thermistor_reading : ℚ) :
    Option ℚ :=
  let referenced_reading := reference_reading - thermistor_reading
  if referenced_reading ≤ 0 then none
  else some (thermistor_reading * bias_resistance / referenced_reading)

/-- Steinhart-Hart Kelvin temperature as computed in `Thermistor.read`:
`1 / (A + B·ln R + C·(ln R)³)`. -/
noncomputable def steinhartHartKelvin (A B C R : ℝ) : ℝ :=
  1 / (A + B * Real.log R + C * Real.log R ^ 3)

/-- `Thermistor.read` with `unit='C'`: propagates an absent resistance,
otherwise converts the Steinhart-Hart Kelvin temperature to Celsius by
subtracting 273.15. -/
noncomputable def Thermistor.read (A B C : ℝ)
    (bias_resistance reference_reading thermistor_reading : ℚ) : Option ℝ :=
  match Thermistor.read_resistance bias_resistance reference_reading thermistor_reading with
  | none => none
  | some R => some (steinhartHartKelvin A B C (R : ℝ) - 273.15)

/-- Direct evaluation of the Steinhart-Hart formula in Celsius, written
from the spec's words (`1/(A + B·ln R + C·(ln R)³) − 273.15`) for
comparison against the temperature `Thermistor.read` produces. -/
noncomputable def specSteinhartHartCelsius (A B C R : ℝ) : ℝ :=
  1 / (A + B * Real.log R + C * (Real.log R) ^ 3) - 273.15


theorem Control.clamp_output_mem (c : Control) (h : c.min_output ≤ c.max_output)
    (x : ℚ) :
    c.min_output ≤ Control.clamp_output c x ∧ Control.clamp_output c x ≤ c.max_output := by
  unfold Control.clamp_output
  exact ⟨le_max_left _ _, max_le h (min_le_left _ _)⟩

/-- C1 (amended): for a control with ordered output bounds, a PRESENT
setpoint and the enabled flag set, every non-absent effort of every
variant lies within `[min_output, max_output]`, and the infinite-gain
variant's non-absent effort is exactly `min_output` or `max_output`.  The
claim as stated fails on the idle paths: with an absent setpoint (or a
disabled control) every variant returns the number `0`, which need not lie
within the bounds (see the counterexample). -/
theorem effort_bounds_amended (c : Control) (s : ℚ)
    (hmm : c.min_output ≤ c.max_output) (hsp : c.setpoint = some s)
    (hen : c.enabled = true) :
    (∀ m e, InfiniteGainControl.compute_control_effort c m = some e →
      (c.min_output ≤ e ∧ e ≤ c.max_output) ∧
      (e = c.min_output ∨ e = c.max_output))
    ∧ (∀ gain m e, ProportionalControl.compute_control_effort gain c m = some e →
      c.min_output ≤ e ∧ e ≤ c.max_output)
    ∧ (∀ pidRaw m e, PIDControl.compute_control_effort pidRaw c m = some e →
      c.min_output ≤ e ∧ e ≤ c.max_output) := by
  refine ⟨?_, ?_, ?_⟩
  · intro m e h
    cases m with
    | none => simp [InfiniteGainControl.compute_control_effort, hsp, hen] at h
    | some mv =>
      simp only [InfiniteGainControl.compute_control_effort, hsp, hen] at h
      norm_num at h
      split_ifs at h <;>
        · rw [Option.some_inj] at h
          subst h
          constructor
          · first
            | exact ⟨le_refl _, hmm⟩
            | exact ⟨hmm, le_refl _⟩
          · first
            | exact Or.inl rfl
            | exact Or.inr rfl
  · intro gain m e h
    cases m with
    | none => simp [ProportionalControl.compute_control_effort, hsp, hen] at h
    | some mv =>
      simp [ProportionalControl.compute_control_effort, hsp, hen] at h
      rw [← h]
      exact Control.clamp_output_mem c hmm _
  · intro pidRaw m e h
    cases m with
    | none => simp [PIDControl.compute_control_effort] at h
    | some mv =>
      simp [PIDControl.compute_control_effort, hsp, hen] at h
      rw [← h]
      exact Control.clamp_output_mem c hmm _

/-- C1 witness: the amended theorem applied to an enabled infinite-gain
control with setpoint 30 and default bounds 0..1, at measurement 25. -/
theorem effort_bounds_amended_witness :
    (({ setpoint := some 30 } : Control).min_output ≤ 1 ∧
      (1 : ℚ) ≤ ({ setpoint := some 30 } : Control).max_output) ∧
    ((1 : ℚ) = ({ setpoint := some 30 } : Control).min_output ∨
      (1 : ℚ) = ({ setpoint := some 30 } : Control).max_output) :=
  (effort_bounds_amended ({ setpoint := some 30 } : Control) 30 (by norm_num) rfl
    rfl).1 (some 25) 1
    (by norm_num [InfiniteGainControl.compute_control_effort])

/-- C1 counterexample: an enabled infinite-gain control with bounds 1..2
but an absent setpoint produces the non-absent effort 0, which is below
`min_output` and is neither bound. -/
theorem effort_bounds_counterexample :
    InfiniteGainControl.compute_control_effort
      ({ setpoint := none, min_output := 1, max_output := 2 } : Control)
      (some 0) = some 0 ∧
    ¬((1 : ℚ) ≤ 0) ∧ (0 : ℚ) ≠ 1 ∧ (0 : ℚ) ≠ 2 := by
  refine ⟨rfl, by norm_num, by norm_num, by norm_num⟩

/-- C2 (amended): the PID variant returns absent for an absent measurement
regardless of setpoint and enabled state; the infinite-gain and
proportional variants return absent for an absent measurement when the
setpoint is present and the control enabled, but (contrary to the claim)
return the number 0 when the setpoint is absent or the control disabled,
because they test those conditions before the measurement; and
`Controller.update` on an absent process variable returns
`(absent, (absent,))` with no `set_state` calls and no reporter records. -/
theorem absent_measurement_amended :
    (∀ pidRaw c, PIDControl.compute_control_effort pidRaw c none = none)
    ∧ (∀ c s, c.setpoint = some s → c.enabled = true →
        InfiniteGainControl.compute_control_effort c none = none)
    ∧ (∀ gain c s, c.setpoint = some s → c.enabled = true →
        ProportionalControl.compute_control_effort gain c none = none)
    ∧ (∀ ctrl now, Controller.update ctrl none now = (ctrl, ⟨(none, [none]), [], []⟩)) := by
  refine ⟨fun pidRaw c => rfl, ?_, ?_, fun ctrl now => rfl⟩
  · intro c s hsp hen
    simp [InfiniteGainControl.compute_control_effort, hsp, hen]
  · intro gain c s hsp hen
    simp [ProportionalControl.compute_control_effort, hsp, hen]

/-- C2 witness: the amended theorem applied to an enabled infinite-gain
control with setpoint 30 and an absent measurement. -/
theorem absent_measurement_amended_witness :
    InfiniteGainControl.compute_control_effort
      ({ setpoint := some 30 } : Control) none = none :=
  absent_measurement_amended.2.1 ({ setpoint := some 30 } : Control) 30 rfl rfl

/-- C2 counterexample: the enabled infinite-gain variant with an absent
setpoint returns the number 0 — not absent — for an absent measurement. -/
theorem absent_measurement_counterexample :
    InfiniteGainControl.compute_control_effort
      ({ setpoint := none } : Control) none = some 0 ∧
    (some (0 : ℚ) : Option ℚ) ≠ none := ⟨rfl, by simp⟩

/-- C3 (amended): a disabled infinite-gain or proportional control returns
the number 0 for every measurement (present or absent) and every setpoint,
and a disabled PID control returns 0 for every PRESENT measurement; but
(contrary to the claim) a disabled PID control returns absent for an
absent measurement, because it tests the measurement before the enabled
flag. -/
theorem disabled_effort_amended :
    (∀ c m, c.enabled = false →
      InfiniteGainControl.compute_control_effort c m = some 0)
    ∧ (∀ gain c m, c.enabled = false →
      ProportionalControl.compute_control_effort gain c m = some 0)
    ∧ (∀ pidRaw c mv, c.enabled = false →
      PIDControl.compute_control_effort pidRaw c (some mv) = some 0) := by
  refine ⟨?_, ?_, ?_⟩
  · intro c m hen
    cases hsp : c.setpoint <;>
      simp [InfiniteGainControl.compute_control_effort, hsp, hen]
  · intro gain c m hen
    cases hsp : c.setpoint <;>
      simp [ProportionalControl.compute_control_effort, hsp, hen]
  · intro pidRaw c mv hen
    simp [PIDControl.compute_control_effort, hen]

/-- C3 witness: the amended theorem applied to a disabled proportional
control with a present setpoint and measurement. -/
theorem disabled_effort_amended_witness :
    ProportionalControl.compute_control_effort 10
      ({ setpoint := some 30, enabled := false } : Control) (some 25) = some 0 :=
  disabled_effort_amended.2.1 10
    ({ setpoint := some 30, enabled := false } : Control) (some 25) rfl

/-- C3 counterexample: a disabled PID control with an absent measurement
returns absent, not the number 0. -/
theorem disabled_effort_counterexample :
    PIDControl.compute_control_effort (fun _ => 0)
      ({ setpoint := some 30, enabled := false } : Control) none = none ∧
    (none : Option ℚ) ≠ some (0 : ℚ) := ⟨rfl, by simp⟩

/-- Helper: `set_setpoint` always leaves the requested value as the stored
setpoint (both on the no-op path and on the change path). -/
theorem Control.set_setpoint_setpoint (c : Control) (v : Option ℚ) :
    (Control.set_setpoint c v).1.setpoint = v := by
  unfold Control.set_setpoint
  split_ifs with h <;> first | exact h.symm | rfl

/-- C4 (amended): `HeaterFanController.set_setpoint` with a present
setpoint `s` leaves the fan control's setpoint at `s + fan_setpoint_offset`
(with offset −5 and setpoint 90 the fan setpoint becomes 85); but — contrary
to the claim — with an ABSENT setpoint the inherited broadcast reaches the
fan control too, setting its setpoint to absent rather than leaving it
unchanged (see the counterexample). -/
theorem fan_setpoint_amended :
    (∀ (h : HeaterFanController) (s : ℚ),
      ((h.set_setpoint (some s)).fan_control).setpoint =
        some (s + h.fan_setpoint_offset))
    ∧ (∀ h : HeaterFanController,
      ((h.set_setpoint none).fan_control).setpoint = none)
    ∧ ((({ heater_control := { setpoint := some 20 },
           fan_control := { setpoint := some 15 },
           fan_setpoint_offset := -5 } : HeaterFanController).set_setpoint
          (some 90)).fan_control.setpoint = some 85) := by
  have key : ∀ (h : HeaterFanController) (s : ℚ),
      ((h.set_setpoint (some s)).fan_control).setpoint =
        some (s + h.fan_setpoint_offset) := by
    intro h s
    simp [HeaterFanController.set_setpoint,
      HeaterFanController.broadcast_set_setpoint, Control.set_setpoint_setpoint]
  refine ⟨key, ?_, ?_⟩
  · intro h
    simp [HeaterFanController.set_setpoint,
      HeaterFanController.broadcast_set_setpoint, Control.set_setpoint_setpoint]
  · rw [key]
    norm_num

/-- C4 counterexample: a fan control holding setpoint 85 has its setpoint
set to absent — not left unchanged — when the primary setpoint is set to
absent, because the inherited broadcast reaches every owned control. -/
theorem fan_setpoint_counterexample :
    ((({ heater_control := { setpoint := some 20 },
         fan_control := { setpoint := some 85 },
         fan_setpoint_offset := -5 } : HeaterFanController).set_setpoint
        none).fan_control.setpoint = none) ∧
    (none : Option ℚ) ≠ some 85 := by
  refine ⟨?_, by simp⟩
  simp [HeaterFanController.set_setpoint,
    HeaterFanController.broadcast_set_setpoint, Control.set_setpoint_setpoint]

/-- Helper: one `update` call on a control with a present setpoint and a
latched reached flag keeps both the setpoint and the latch. -/
theorem Control.update_latched (c : Control) (s : ℚ) (m : Option ℚ)
    (hsp : c.setpoint = some s) (hr : c.setpoint_reached = some true) :
    (Control.update c m).setpoint = some s ∧
      (Control.update c m).setpoint_reached = some true := by
  rcases hm : Control.compute_setpoint_reached c m with _ | b
  · simp [Control.update, hsp, hm, hr]
  · cases b <;> simp [Control.update, hsp, hm, hr]

/-- C6 (confirmed): once the reached latch of a control with a fixed
present setpoint is true, it remains true across every subsequent
`update(measurement)` call, for any sequence of measurements (present or
absent, inside or outside epsilon). -/
theorem setpoint_reached_latch_monotone (c : Control) (s : ℚ)
    (ms : List (Option ℚ)) (hsp : c.setpoint = some s)
    (hr : c.setpoint_reached = some true) :
    (ms.foldl Control.update c).setpoint_reached = some true := by
  induction ms generalizing c with
  | nil => simpa using hr
  | cons m rest ih =>
    have h := Control.update_latched c s m hsp hr
    simpa using ih (Control.update c m) h.1 h.2

/-- C6 witness: a latched control with setpoint 30 and epsilon 0 stays
latched across measurements 100 (far outside epsilon), absent, and 30. -/
theorem setpoint_reached_latch_monotone_witness :
    (([some 100, none, some 30] : List (Option ℚ)).foldl Control.update
      { setpoint := some 30, setpoint_reached := some true }).setpoint_reached =
      some true :=
  setpoint_reached_latch_monotone
    { setpoint := some 30, setpoint_reached := some true } 30
    [some 100, none, some 30] rfl rfl

/-- C7 (amended): `set_setpoint` with a value equal to the current
setpoint changes no state and fires no callback; with a different value it
stores the value, resets the reached latch to FALSE — also when the new
value is absent, contrary to the claim's "or to unset when v is absent"
(the latch only becomes unset at the next `update()` call) — and invokes
the setpoint-change callback exactly once when one is attached. -/
theorem set_setpoint_amended (c : Control) (v : Option ℚ) :
    (v = c.setpoint → Control.set_setpoint c v = (c, 0))
    ∧ (v ≠ c.setpoint →
        (Control.set_setpoint c v).1.setpoint = v ∧
        (Control.set_setpoint c v).1.setpoint_reached = some false ∧
        (Control.set_setpoint c v).2 =
          (if c.has_after_setpoint_change then 1 else 0)) := by
  constructor
  · intro h
    simp [Control.set_setpoint, h]
  · intro h
    simp [Control.set_setpoint, h, Control.reset_setpoint_reached]

/-- C7 witness: the amended theorem applied to a latched control at
setpoint 5 with a callback attached, receiving the new setpoint 7. -/
theorem set_setpoint_amended_witness :
    (Control.set_setpoint { setpoint := some 5, setpoint_reached := some true, has_after_setpoint_change := true } (some 7)).1.setpoint = some 7 ∧
    (Control.set_setpoint { setpoint := some 5, setpoint_reached := some true, has_after_setpoint_change := true } (some 7)).1.setpoint_reached = some false ∧
    (Control.set_setpoint { setpoint := some 5, setpoint_reached := some true, has_after_setpoint_change := true } (some 7)).2 =
      (if ({ setpoint := some 5, setpoint_reached := some true, has_after_setpoint_change := true } : Control).has_after_setpoint_change then 1 else 0) :=
  (set_setpoint_amended
    { setpoint := some 5, setpoint_reached := some true, has_after_setpoint_change := true }
    (some 7)).2 (by norm_num)

/-- C7 counterexample: changing a latched control's setpoint from 5 to
absent resets the latch to FALSE, not to unset as the claim states. -/
theorem set_setpoint_counterexample :
    (Control.set_setpoint { setpoint := some 5, setpoint_reached := some true }
      none).1.setpoint_reached = some false ∧
    (some false : Option Bool) ≠ none := by
  refine ⟨?_, by simp⟩
  simp [Control.set_setpoint, Control.reset_setpoint_reached]

/-- C10 (confirmed): a `ControllerReporter` is constructed with its
enabled flag false, every `update()` on a disabled reporter is a no-op
(state unchanged, nothing emitted), and every `reset()` call leaves the
enabled flag true — also when `disable()` had been called beforehand. -/
theorem reporter_init_reset_enabled :
    (∀ i : ℚ, (ControllerReporter.init i).enabled = false)
    ∧ (∀ (r : ControllerReporter) (t : ℚ) (pv sp : Option ℚ)
        (re : Option Bool) (eff : List (Option ℚ)), r.enabled = false →
        ControllerReporter.update r t pv sp re eff = (r, none))
    ∧ (∀ r : ControllerReporter, (ControllerReporter.reset r).enabled = true) := by
  refine ⟨fun i => rfl, ?_, fun r => rfl⟩
  intro r t pv sp re eff hen
  cases pv with
  | none => rfl
  | some pvv => simp [ControllerReporter.update, hen]

/-- C10 witness: the no-op clause applied to a freshly constructed
(disabled) reporter with interval 1, at time 0 and measurement 25. -/
theorem reporter_init_reset_enabled_witness :
    ControllerReporter.update (ControllerReporter.init 1) 0 (some 25) none none [] =
      (ControllerReporter.init 1, none) :=
  reporter_init_reset_enabled.2.1 (ControllerReporter.init 1) 0 (some 25) none none [] rfl

/-- Helper: one `update` call on an armed reporter (start time and report
index both present) preserves the interval, the start time and — absent an
emission — the index; an emission carries a report time no earlier than
`start + index * interval` and advances the index by one. -/
theorem ControllerReporter.update_armed (r : ControllerReporter) (d s : ℚ)
    (i : ℕ) (hd : r.interval = d) (hs : r.start_time = some s)
    (hi : r.next_report_index = some i) (t : ℚ) (pv sp : Option ℚ)
    (re : Option Bool) (eff : List (Option ℚ)) :
    ((ControllerReporter.update r t pv sp re eff).1.interval = d ∧
     (ControllerReporter.update r t pv sp re eff).1.start_time = some s) ∧
    (((ControllerReporter.update r t pv sp re eff).2 = none ∧
      (ControllerReporter.update r t pv sp re eff).1.next_report_index = some i) ∨
     (∃ rec, (ControllerReporter.update r t pv sp re eff).2 = some rec ∧
      s + i * d ≤ rec.report_time ∧
      (ControllerReporter.update r t pv sp re eff).1.next_report_index =
        some (i + 1))) := by
  cases pv with
  | none => simp [ControllerReporter.update, hd, hs, hi]
  | some pvv =>
    by_cases he : r.enabled
    · simp only [ControllerReporter.update, he, if_true, hi, hs]
      split_ifs with ht
      · refine ⟨⟨hd, rfl⟩, Or.inr ⟨_, rfl, ?_, rfl⟩⟩
        rw [← hd]
        linarith [ht]
      · exact ⟨⟨hd, hs⟩, Or.inl ⟨rfl, hi⟩⟩
    · simp [ControllerReporter.update, he, hd, hs, hi]

/-- C5 (amended): each `update()` call emits at most one record (a run of
n calls emits at most n records), and the k-th record emitted from an
armed reporter with start time s and report index i has
`report_time ≥ s + (i + k) * interval` — the emission THRESHOLDS are
spaced `interval` apart; but, contrary to the claim, the report_time
values of two consecutive emitted records can be less than `interval`
apart (even equal) when a call overshoots its threshold, since the next
threshold may then already be in the past (see the counterexample). -/
theorem reporter_min_spacing_amended (d s : ℚ) :
    ∀ (calls : List (ℚ × Option ℚ)) (r : ControllerReporter) (i : ℕ),
      r.interval = d → r.start_time = some s → r.next_report_index = some i →
      (ControllerReporter.run r calls).2.length ≤ calls.length ∧
      ∀ k : ℕ, k < (ControllerReporter.run r calls).2.length →
        s + (i + k : ℕ) * d ≤
          ((ControllerReporter.run r calls).2.getD k ⟨0, ""⟩).report_time := by
  intro calls
  induction calls with
  | nil =>
    intro r i hd hs hi
    exact ⟨le_refl _, fun k hk => absurd hk (by simp [ControllerReporter.run])⟩
  | cons c rest ih =>
    intro r i hd hs hi
    obtain ⟨t, pv⟩ := c
    obtain ⟨⟨hint, hstart⟩, hcase⟩ :=
      ControllerReporter.update_armed r d s i hd hs hi t pv none none []
    rcases hcase with ⟨hnone, hidx⟩ | ⟨rec, hsome, hbound, hidx⟩
    · have IH := ih (ControllerReporter.update r t pv none none []).1 i hint hstart hidx
      have hrun : (ControllerReporter.run r ((t, pv) :: rest)).2 =
          (ControllerReporter.run
            (ControllerReporter.update r t pv none none []).1 rest).2 := by
        simp [ControllerReporter.run, hnone]
      constructor
      · rw [hrun]
        exact le_trans IH.1 (by simp)
      · intro k hk
        rw [hrun] at hk ⊢
        exact IH.2 k hk
    · have IH := ih (ControllerReporter.update r t pv none none []).1 (i + 1)
        hint hstart hidx
      have hrun : (ControllerReporter.run r ((t, pv) :: rest)).2 =
          rec :: (ControllerReporter.run
            (ControllerReporter.update r t pv none none []).1 rest).2 := by
        simp [ControllerReporter.run, hsome]
      constructor
      · rw [hrun]
        simpa using Nat.succ_le_succ IH.1
      · intro k hk
        rw [hrun] at hk ⊢
        cases k with
        | zero => simpa using hbound
        | succ k =>
          have hk2 : k < (ControllerReporter.run
              (ControllerReporter.update r t pv none none []).1 rest).2.length := by
            simpa using Nat.lt_of_succ_lt_succ hk
          have h2 := IH.2 k hk2
          simp only [List.getD_cons_succ]
          refine le_trans (le_of_eq ?_) h2
          push_cast
          ring

/-- C5 witness: the amended theorem applied to an armed reporter with
interval 1/2, start time 0 and index 0, over a single update call. -/
theorem reporter_min_spacing_amended_witness :
    (ControllerReporter.run { interval := 1/2, start_time := some 0, next_report_index := some 0, enabled := true, file_open := true } [((0 : ℚ), some (25 : ℚ))]).2.length ≤
      [((0 : ℚ), some (25 : ℚ))].length :=
  (reporter_min_spacing_amended (1/2) 0 [((0 : ℚ), some (25 : ℚ))]
    { interval := 1/2, start_time := some 0, next_report_index := some 0, enabled := true, file_open := true }
    0 rfl rfl rfl).1

/-- C5 counterexample: a fresh enabled reporter with interval 1/2 driven
at nondecreasing clock times 0, 1.2, 1.2 emits three records with report
times 0, 1.2 and 1.2 — the last two are 0 seconds apart, less than the
interval, refuting the claimed minimum spacing between consecutive
records. -/
theorem reporter_min_spacing_counterexample :
    ((ControllerReporter.run { interval := 1/2, enabled := true }
      [((0 : ℚ), some 25), ((6/5 : ℚ), some 25), ((6/5 : ℚ), some 25)]).2.map
        ReportRecord.report_time = [0, 6/5, 6/5]) ∧
    (6/5 : ℚ) - 6/5 < 1/2 := by
  constructor
  · norm_num [ControllerReporter.run, ControllerReporter.update]
  · norm_num

/-- C8 (code bug): the record format drops the effort field ENTIRELY —
comma included — whenever the joined efforts string is empty, because the
source guards it with the string's truthiness while the header guards its
column with the non-emptiness of the names tuple.  With one named control
effort whose value is absent, the record has five fields where the claim
(and the header) demand six with a blank fifth: the line reads
`0.00,25.0,30.0,5.0,True`, not `0.00,25.0,30.0,5.0,,True`.  With two
efforts the blank IS rendered (third conjunct), so the single-absent-effort
record is misaligned with the file's own header. -/
theorem report_absent_effort_field_dropped :
    ControllerReporter.report 0 0 25 (some 30) (some true) [none] =
      "0.00,25.0,30.0,5.0,True" ∧
    ControllerReporter.report 0 0 25 (some 30) (some true) [none] ≠
      "0.00,25.0,30.0,5.0,,True" ∧
    ControllerReporter.report 0 0 25 (some 30) (some true) [none, some (1/2)] =
      "0.00,25.0,30.0,5.0,,0.50,True" := by
  have h1 : ControllerReporter.report 0 0 25 (some 30) (some true) [none] =
      "0.00,25.0,30.0,5.0,True" := by
    norm_num [ControllerReporter.report, ControllerReporter.format_control_efforts,
      formatFixed, roundHalfEven, padZeros]
    rfl
  refine ⟨h1, ?_, ?_⟩
  · rw [h1]
    decide
  · norm_num [ControllerReporter.report, ControllerReporter.format_control_efforts,
      formatFixed, roundHalfEven, padZeros]
    rfl

/-- C9 (confirmed): `read_resistance` returns absent exactly when the
referenced reading (reference minus sensed) is ≤ 0, otherwise the
resistance is `reading * bias_resistance / referenced_reading`; `read`
propagates absence and otherwise returns the Steinhart-Hart Celsius
temperature `1/(A + B ln R + C (ln R)³) − 273.15`; with bias 1960,
reference reading 1000 and sensed reading 400 the resistance is
`400*1960/600` and the temperature agrees with the direct evaluation of
the Steinhart-Hart formula exactly (difference zero, within 1e-6 °C). -/
theorem thermistor_read_correct :
    (∀ bias ref reading : ℚ,
      Thermistor.read_resistance bias ref reading = none ↔ ref - reading ≤ 0)
    ∧ (∀ (A B C : ℝ) (bias ref reading : ℚ),
      Thermistor.read A B C bias ref reading =
        if ref - reading ≤ 0 then none
        else some (steinhartHartKelvin A B C
          ((reading * bias / (ref - reading) : ℚ) : ℝ) - 273.15))
    ∧ Thermistor.read_resistance 1960 1000 400 = some (400 * 1960 / 600)
    ∧ (∃ T : ℝ,
        Thermistor.read (1.0349722e-3) (2.2717988e-4) (3.008424e-7)
          1960 1000 400 = some T ∧
        |T - specSteinhartHartCelsius (1.0349722e-3) (2.2717988e-4) (3.008424e-7)
          ((400 * 1960 / 600 : ℚ) : ℝ)| < 1e-6) := by
  have hres : Thermistor.read_resistance 1960 1000 400 = some (400 * 1960 / 600) := by
    norm_num [Thermistor.read_resistance]
  refine ⟨?_, ?_, hres, ?_⟩
  · intro bias ref reading
    simp only [Thermistor.read_resistance]
    split_ifs with h <;> simp [h]
  · intro A B C bias ref reading
    simp only [Thermistor.read, Thermistor.read_resistance]
    split_ifs with h <;> rfl
  · refine ⟨steinhartHartKelvin (1.0349722e-3) (2.2717988e-4) (3.008424e-7)
      ((400 * 1960 / 600 : ℚ) : ℝ) - 273.15, ?_, ?_⟩
    · simp only [Thermistor.read, hres]
    · simp only [specSteinhartHartCelsius, steinhartHartKelvin]
      rw [sub_self, abs_zero]
      norm_num
